import Mathlib

/-!
Verification of the streaming connection manager and request signing of the
valr-go client library, embedded shallowly from `api/streaming/streaming.go`
and `api/client.go`.
-/

namespace Valr

/-- Modelled from the spec: the payload delivered to the update callback
(spec section 6 payload shape). The Go struct `MessageTradeUpdate` is defined in a
messages file of the streaming package that is not present under src/; only its
callers are. Its fields never influence control flow in the embedded code, which
treats the decoded payload as opaque. -/
structure MessageTradeUpdate where
  currencyPairSymbol : String
  takerSide : String
  price : String
  quantity : String
  tradedAt : String
  id : String
deriving DecidableEq

/-- `Conn.receivedUpdate` result (streaming.go 148-167): either the function
returns a non-nil error (`fatal`), invokes the update callback (`callback`),
silently ignores an acknowledged kind, or logs an unknown kind and returns nil. -/
inductive UpdOutcome where
  | fatal
  | callback (m : MessageTradeUpdate)
  | ignored
  | unknown
deriving DecidableEq

/-- `Conn.receivedUpdate` (streaming.go 148-167). The `json.Unmarshal` of the
payload bytes into `MessageTradeUpdate` is represented by the oracle argument
`tradePayload`: `none` when unmarshalling fails, `some m` when it yields `m`. -/
def receivedUpdate (msgType : String) (tradePayload : Option MessageTradeUpdate) : UpdOutcome :=
  if msgType = "NEW_TRADE" then
    match tradePayload with
    | none => UpdOutcome.fatal
    | some m => UpdOutcome.callback m
  else if msgType = "AUTHENTICATED" then UpdOutcome.ignored
  else if msgType = "SUBSCRIBED" then UpdOutcome.ignored
  else UpdOutcome.unknown

/-- An inbound websocket frame as seen by the read loop (streaming.go 118-144).
`raw` is the frame's byte content as a string. The two `json.Unmarshal` calls of
the read path are represented by decode oracles attached to the frame:
`typeField` is the `Type` field obtained by unmarshalling into `MessageType`
(`none` when that unmarshal fails), `tradePayload` the result of unmarshalling
into `MessageTradeUpdate`. -/
structure InFrame where
  raw : String
  typeField : Option String
  tradePayload : Option MessageTradeUpdate
deriving DecidableEq

/-- The literal two-character frame content `""` that the read loop treats as a
server keep-alive (streaming.go 130-133). -/
def keepAliveRaw : String := "\"\""

/-- What one iteration of the read loop does with a received frame
(streaming.go 130-144): skip server keep-alives before any decode; fail the
session when the `MessageType` unmarshal fails; otherwise dispatch through
`receivedUpdate`, failing the session exactly when it returns an error. -/
inductive FrameStep where
  | fatalStop
  | continueWith (act : Option MessageTradeUpdate)
deriving DecidableEq

def processFrame (f : InFrame) : FrameStep :=
  if f.raw = keepAliveRaw then FrameStep.continueWith none
  else
    match f.typeField with
    | none => FrameStep.fatalStop
    | some t =>
      match receivedUpdate t f.tradePayload with
      | UpdOutcome.fatal => FrameStep.fatalStop
      | UpdOutcome.callback m => FrameStep.continueWith (some m)
      | UpdOutcome.ignored => FrameStep.continueWith none
      | UpdOutcome.unknown => FrameStep.continueWith none

/-- Result of `c.ws.ReadMessage()` (streaming.go 118): a frame or an error
(including a read-deadline timeout surfacing as an error). -/
inductive ReadResult where
  | frame (f : InFrame)
  | readErr
deriving DecidableEq

/-- One scheduled event inside a live session. The read loop of `Conn.connect`
(streaming.go 113-145) and the `Conn.sendPings` select loop (streaming.go
198-234) run concurrently over the same session; a session script is the
interleaving of their events.
* `read closedNow r`: one iteration of the read loop; `closedNow` is the value
  `c.IsClosed()` returns at the top of that iteration, `r` what `ReadMessage`
  then returns.
* `pingTick writeOk`: the ticker case of `sendPings`; `writeOk` is whether the
  ping `WriteMessage` succeeds (on failure the error is only logged).
* `subRecv pairs writeOk`: the `SubscribeCh` case of `sendPings`: a
  `SubscribeToMarkets` call rendezvoused, and `WriteJSON` of the SUBSCRIBE
  payload succeeds iff `writeOk` (on failure the error is only logged and the
  loop continues). -/
inductive SessEvent where
  | read (closedNow : Bool) (r : ReadResult)
  | pingTick (writeOk : Bool)
  | subRecv (pairs : List String) (writeOk : Bool)
deriving DecidableEq

/-- Externally observable actions of a session. -/
inductive SessAction where
  | callback (m : MessageTradeUpdate)
  | subscribeSent (pairs : List String)
  | pingSent
deriving DecidableEq

/-- How `Conn.connect` returns: `closedExit` is the `return nil` after observing
the closed flag (streaming.go 114-116), `fatal` a non-nil error return,
`running` means the script is exhausted while the loop is still serving. -/
inductive SessOutcome where
  | closedExit
  | fatal
  | running
deriving DecidableEq

/-- Trace semantics of one established session: the ordered observable actions
and the way `Conn.connect` returns, for a given interleaving of read-loop and
`sendPings` events. Write failures in `sendPings` are logged and ignored
(streaming.go 208-210, 228-231); only the read path can end the session. -/
def connectLoop : List SessEvent → List SessAction × SessOutcome
  | [] => ([], SessOutcome.running)
  | SessEvent.pingTick ok :: rest =>
      let r := connectLoop rest
      (if ok then SessAction.pingSent :: r.1 else r.1, r.2)
  | SessEvent.subRecv pairs ok :: rest =>
      let r := connectLoop rest
      (if ok then SessAction.subscribeSent pairs :: r.1 else r.1, r.2)
  | SessEvent.read closedNow rr :: rest =>
      if closedNow then ([], SessOutcome.closedExit)
      else
        match rr with
        | ReadResult.readErr => ([], SessOutcome.fatal)
        | ReadResult.frame f =>
          match processFrame f with
          | FrameStep.fatalStop => ([], SessOutcome.fatal)
          | FrameStep.continueWith none => connectLoop rest
          | FrameStep.continueWith (some m) =>
              let r := connectLoop rest
              (SessAction.callback m :: r.1, r.2)

/-- Actions of the supervisor loop `Conn.manageForever` (streaming.go 72-89):
a connect attempt (the dial in `Conn.connect`, which happens before any closed
check), the actions of an established session, and the backoff wait
(`time.Sleep(dt)`). -/
inductive SupAction where
  | connectAttempt
  | sess (a : SessAction)
  | backoffWait
deriving DecidableEq

/-- Trace semantics of `Conn.manageForever` (streaming.go 72-89), unrolled for
`n` loop iterations. `scripts k` is session `k`: `none` when the dial itself
fails (connect returns before any session exists), `some evs` the event
interleaving of the established session. `closedAfter k` is what `c.IsClosed()`
returns at the supervisor's check after session `k` returns. Note the loop
structure of the source: after that single check, the supervisor waits once and
immediately dials again; there is no second check between the sleep and the next
connect. A session whose script is exhausted (`running`) leaves the supervisor
blocked inside `connect`, so the trace ends there. -/
def manageForeverTrace : Nat → (Nat → Option (List SessEvent)) → (Nat → Bool) → List SupAction
  | 0, _, _ => []
  | n+1, scripts, closedAfter =>
    SupAction.connectAttempt ::
      (let tail :=
        if closedAfter 0 then []
        else
          SupAction.backoffWait ::
            manageForeverTrace n (fun i => scripts (i+1)) (fun i => closedAfter (i+1));
      match scripts 0 with
      | none => tail
      | some script =>
        let r := connectLoop script
        r.1.map SupAction.sess ++
          (match r.2 with
           | SessOutcome.running => []
           | SessOutcome.closedExit => tail
           | SessOutcome.fatal => tail))

/-- The mutable control state of `Conn` relevant to `Close` (streaming.go
34-48, 239-257): the monotonic `closed` flag, plus whether a transport session
(`c.ws`) is currently live. The live session is torn down only by the
`defer ws.Close()` inside `Conn.connect` (streaming.go 101-104), which runs
when the read loop returns; it is not part of `Close`. -/
structure ConnCtl where
  closed : Bool
  wsLive : Bool
deriving DecidableEq

/-- `Conn.reset` (streaming.go 247-250): acquires and releases the mutex and
mutates nothing. -/
def reset (s : ConnCtl) : ConnCtl := s

/-- `Conn.Close` (streaming.go 239-245): set the closed flag, then call
`reset`. -/
def Close (s : ConnCtl) : ConnCtl := reset { s with closed := true }

/-- `Conn.IsClosed` (streaming.go 253-257). -/
def IsClosed (s : ConnCtl) : Bool := s.closed

/-- A Go channel of `[]string`, described by its capacity and buffer. -/
structure ChanState where
  cap : Nat
  buf : List (List String)
deriving DecidableEq

/-- Go channel-send semantics when no receiver is concurrently ready: the send
completes (enqueues) iff the buffer has free space; otherwise the sender
blocks, returned here as `none`. `Conn.SubscribeToMarkets` (streaming.go
259-261) is exactly one such send on `c.SubscribeCh`; the only receive on that
channel in the package is the `SubscribeCh` case of `Conn.sendPings`
(streaming.go 211), which runs only while a session is live. -/
def trySendNoReceiver (ch : ChanState) (pairs : List String) : Option ChanState :=
  if ch.buf.length < ch.cap then some { ch with buf := ch.buf ++ [pairs] } else none

/-- `SubscribeCh` as created by `Dial` (streaming.go 62): `make(chan []string)`,
an unbuffered channel. -/
def dialSubscribeCh : ChanState := { cap := 0, buf := [] }

/-- `readTimeout` (streaming.go 22): `time.Minute`, in seconds. -/
def readTimeout : Nat := 60

/-- Events relevant to the session's read deadline, tagged with the time (in
seconds from session start) at which they are processed by the read path:
receipt of a pong control frame, or receipt of an ordinary data frame. -/
inductive LiveEvent where
  | pong (t : Nat)
  | data (t : Nat)
deriving DecidableEq

/-- Effect of one event on the read deadline (streaming.go 190-196): the pong
handler extends the deadline to now + `readTimeout`; nothing in the read loop
or in `sendPings` touches the deadline when a data frame arrives. -/
def stepDeadline (d : Nat) (e : LiveEvent) : Nat :=
  match e with
  | LiveEvent.pong t => t + readTimeout
  | LiveEvent.data _ => d

/-- The read deadline after processing the given events, starting from the
initial `SetReadDeadline(time.Now().Add(readTimeout))` at session start
(streaming.go 191). -/
def deadlineAfter (evs : List LiveEvent) : Nat :=
  evs.foldl stepDeadline readTimeout

/-- The read path observes a timeout (and so surfaces a fatal session error)
when it is still blocked in `ReadMessage` at a time past the deadline. -/
@[reducible] def timedOutAt (evs : List LiveEvent) (t : Nat) : Prop := deadlineAfter evs < t

def isPong : LiveEvent → Bool
  | LiveEvent.pong _ => true
  | LiveEvent.data _ => false

/-- `backoffParams` with the fields used by `Conn.calculateBackoff`
(streaming.go 169-184): the consecutive-attempt count and the timestamp of the
last attempt. `new(backoffParams)` (streaming.go 73) yields the zero value
`⟨0, 0⟩`. Times and durations are integers (nanoseconds in Go). -/
structure backoffParams where
  attempts : Nat
  lastAttempt : Int
deriving DecidableEq

/-- The fields of `Conn` read by `calculateBackoff`: the reset threshold and
the optional caller-supplied backoff policy. -/
structure BackoffConfig where
  attemptReset : Int
  backoffHandler : Option (Nat → Int)

/-- `Conn.calculateBackoff` (streaming.go 169-184). The Go method mutates `p`
and returns a duration; the model returns the duration together with the
updated params. `defaultHandler` stands for the package-level
`defaultBackoffHandler` used when no policy was injected. -/
def calculateBackoff (c : BackoffConfig) (defaultHandler : Nat → Int)
    (p : backoffParams) (ts : Int) : Int × backoffParams :=
  let p1 := if ts - p.lastAttempt ≥ c.attemptReset then { p with attempts := 0 } else p
  let p2 := { p1 with attempts := p1.attempts + 1 }
  let handler :=
    match c.backoffHandler with
    | some h => h
    | none => defaultHandler
  let p3 := { p2 with lastAttempt := ts }
  (handler p3.attempts, p3)

/-- `defaultAttemptReset` (streaming.go 25): `time.Minute * 30`, in seconds. -/
def defaultAttemptReset : Int := 30 * 60

/-- The fields of `Conn` that `Dial` initialises before spawning the
supervisor (streaming.go 58-63). -/
structure ConnInit where
  keyID : String
  keySecret : String
  attemptReset : Int
deriving DecidableEq

/-- Background tasks spawned by `Dial`. -/
inductive SpawnedTask where
  | manageForeverTask
deriving DecidableEq

/-- `Dial` (streaming.go 53-70): reject empty credentials synchronously with
an error and spawn nothing; otherwise build the `Conn`, apply the options, and
spawn exactly the one `manageForever` goroutine. `Dial` returns without
waiting on any connection outcome: its result is a pure function of the
credentials and options. -/
def Dial (keyID keySecret : String) (opts : List (ConnInit → ConnInit)) :
    Except String (ConnInit × List SpawnedTask) :=
  if keyID = "" ∨ keySecret = "" then
    Except.error "streaming: streaming API requires credentials"
  else
    Except.ok
      (opts.foldl (fun c o => o c)
        { keyID := keyID, keySecret := keySecret, attemptReset := defaultAttemptReset },
       [SpawnedTask.manageForeverTask])

/-- ASCII uppercase of one byte: the effect of Go `strings.ToUpper` on each
byte of an ASCII string such as an HTTP verb. Strings and byte slices are
modelled as lists of byte values. -/
def byteToUpper (b : Nat) : Nat := if 97 ≤ b ∧ b ≤ 122 then b - 32 else b

/-- Go `strings.ToUpper` on a byte string. -/
def bytesToUpper (s : List Nat) : List Nat := s.map byteToUpper

/-- The byte stream written into the MAC by `SignRequest` (client.go 247-250):
timestamp, then the uppercased verb, then the path, then the body. -/
def macInput (timestampString verb path body : List Nat) : List Nat :=
  timestampString ++ bytesToUpper verb ++ path ++ body

/-- `SignRequest` (client.go 243-253): hex-encoded HMAC-SHA512 of `macInput`
under the secret. The MAC itself is an opaque parameter: every property proved
below concerns only the construction of its input, so it holds for the real
HMAC-SHA512 as one instance. -/
def SignRequest (hmacSha512Hex : List Nat → List Nat → List Nat)
    (apiSecret timestampString verb path body : List Nat) : List Nat :=
  hmacSha512Hex apiSecret (macInput timestampString verb path body)

/-- Keep only the supervisor's control actions (connect attempts and backoff
waits), discarding session actions. -/
def isCtl : SupAction → Bool
  | SupAction.connectAttempt => true
  | SupAction.backoffWait => true
  | SupAction.sess _ => false

def ctlOnly (tr : List SupAction) : List SupAction := tr.filter isCtl

/-- Checks that a control-action list strictly alternates, starting with a
connect attempt when the flag is `true`: connect, wait, connect, wait, ... -/
def altFrom : Bool → List SupAction → Bool
  | _, [] => true
  | true, SupAction.connectAttempt :: l => altFrom false l
  | true, SupAction.backoffWait :: _ => false
  | true, SupAction.sess _ :: _ => false
  | false, SupAction.backoffWait :: l => altFrom true l
  | false, SupAction.connectAttempt :: _ => false
  | false, SupAction.sess _ :: _ => false

def countConnects (tr : List SupAction) : Nat :=
  (tr.filter fun a => decide (a = SupAction.connectAttempt)).length

def isSubscribeSent : SupAction → Bool
  | SupAction.sess (SessAction.subscribeSent _) => true
  | _ => false

def isCallbackAct : SupAction → Bool
  | SupAction.sess (SessAction.callback _) => true
  | _ => false

/-- A concrete decoded trade used by the scenarios below. -/
def tradeMsg : MessageTradeUpdate :=
  { currencyPairSymbol := "BTCZAR", takerSide := "buy", price := "500000",
    quantity := "0.01", tradedAt := "2024-01-01T00:00:00Z", id := "abc" }

/-- A well-formed NEW_TRADE frame: its discriminator decodes to NEW_TRADE and
its payload parses to `tradeMsg`. (`raw` stands for the frame's JSON bytes;
only its inequality with the keep-alive content matters to the code.) -/
def tradeFrame : InFrame :=
  { raw := "newtrade-json", typeField := some "NEW_TRADE", tradePayload := some tradeMsg }

/-- Scenario for the replay claim: session 0 rendezvouses one subscription
batch and then dies with a read error; session 1 immediately receives a trade
frame. -/
def c1scripts : Nat → Option (List SessEvent)
  | 0 => some [SessEvent.subRecv ["BTCZAR"] true,
               SessEvent.read false ReadResult.readErr]
  | 1 => some [SessEvent.read false (ReadResult.frame tradeFrame)]
  | _ => some []

def c1flags : Nat → Bool := fun _ => false

/-- Scenario for the write-error claim: a ping write fails, the SUBSCRIBE
write fails, and an ordinary trade frame is then read. -/
def c5script : List SessEvent :=
  [SessEvent.pingTick false, SessEvent.subRecv ["BTCZAR"] false,
   SessEvent.read false (ReadResult.frame tradeFrame)]

/-- A concrete injected backoff policy (duration = attempt count), used to
make the computed waits observable. -/
def idPolicy : Nat → Int := fun n => (n : Int)

/-- A concrete backoff configuration: reset threshold 10 time units, policy
`idPolicy`. -/
def c7Config : BackoffConfig := { attemptReset := 10, backoffHandler := some idPolicy }

/-! ## Helper lemmas -/

lemma filter_isCtl_sessMap (as : List SessAction) :
    List.filter isCtl (as.map SupAction.sess) = [] := by
  induction as with
  | nil => rfl
  | cons a as ih => simp [isCtl, ih]

lemma countConnects_sessMap (as : List SessAction) :
    countConnects (as.map SupAction.sess) = 0 := by
  induction as with
  | nil => rfl
  | cons a as ih => simp [countConnects]

lemma countConnects_append (l1 l2 : List SupAction) :
    countConnects (l1 ++ l2) = countConnects l1 + countConnects l2 := by
  simp [countConnects, List.filter_append]

/-- The supervisor's control actions strictly alternate: after every connect
attempt, either the trace ends or exactly one backoff wait precedes the next
connect attempt. -/
lemma manage_alt (n : Nat) : ∀ scripts closedAfter,
    altFrom true (ctlOnly (manageForeverTrace n scripts closedAfter)) = true := by
  induction n with
  | zero => intro scripts closedAfter; rfl
  | succ n ih =>
    intro scripts closedAfter
    have tail_ok : altFrom false
        (List.filter isCtl (if closedAfter 0 then []
          else SupAction.backoffWait ::
            manageForeverTrace n (fun i => scripts (i+1)) (fun i => closedAfter (i+1)))) = true := by
      by_cases hc : closedAfter 0
      · simp [hc, altFrom]
      · have hrec := ih (fun i => scripts (i+1)) (fun i => closedAfter (i+1))
        simp only [ctlOnly] at hrec
        simp [hc, isCtl, altFrom, hrec]
    simp only [ctlOnly]
    cases hs : scripts 0 with
    | none =>
      simp only [manageForeverTrace, hs, List.filter_cons, isCtl]
      simpa [altFrom] using tail_ok
    | some script =>
      cases ho : (connectLoop script).2 with
      | running =>
        simp [manageForeverTrace, hs, ho, isCtl, altFrom,
          List.filter_append, filter_isCtl_sessMap]
      | closedExit =>
        simp only [manageForeverTrace, hs, ho, List.filter_cons, isCtl,
          List.filter_append, filter_isCtl_sessMap]
        simpa [altFrom] using tail_ok
      | fatal =>
        simp only [manageForeverTrace, hs, ho, List.filter_cons, isCtl,
          List.filter_append, filter_isCtl_sessMap]
        simpa [altFrom] using tail_ok

/-! Definitional equations of `connectLoop`, one per event shape. -/

lemma connectLoop_nil : connectLoop [] = ([], SessOutcome.running) := rfl

lemma connectLoop_ping_t (rest : List SessEvent) :
    connectLoop (SessEvent.pingTick true :: rest) =
      (SessAction.pingSent :: (connectLoop rest).1, (connectLoop rest).2) := rfl

lemma connectLoop_ping_f (rest : List SessEvent) :
    connectLoop (SessEvent.pingTick false :: rest) = connectLoop rest := rfl

lemma connectLoop_sub_t (ps : List String) (rest : List SessEvent) :
    connectLoop (SessEvent.subRecv ps true :: rest) =
      (SessAction.subscribeSent ps :: (connectLoop rest).1, (connectLoop rest).2) := rfl

lemma connectLoop_sub_f (ps : List String) (rest : List SessEvent) :
    connectLoop (SessEvent.subRecv ps false :: rest) = connectLoop rest := rfl

lemma connectLoop_read_closed (rr : ReadResult) (rest : List SessEvent) :
    connectLoop (SessEvent.read true rr :: rest) = ([], SessOutcome.closedExit) := rfl

lemma connectLoop_read_err (rest : List SessEvent) :
    connectLoop (SessEvent.read false ReadResult.readErr :: rest) =
      ([], SessOutcome.fatal) := rfl

lemma connectLoop_read_frame (f : InFrame) (rest : List SessEvent) :
    connectLoop (SessEvent.read false (ReadResult.frame f) :: rest) =
      (match processFrame f with
       | FrameStep.fatalStop => ([], SessOutcome.fatal)
       | FrameStep.continueWith none => connectLoop rest
       | FrameStep.continueWith (some m) =>
           (SessAction.callback m :: (connectLoop rest).1, (connectLoop rest).2)) := rfl

/-- `processFrame` never produces a subscription action: subscription frames
originate exclusively in the `SubscribeCh` case of `sendPings`, so every
subscription frame a session emits comes from a rendezvous during that
session. -/
lemma connectLoop_sub_mem : ∀ (evs : List SessEvent) (pairs : List String),
    SessAction.subscribeSent pairs ∈ (connectLoop evs).1 →
    SessEvent.subRecv pairs true ∈ evs := by
  intro evs
  induction evs with
  | nil => intro pairs h; rw [connectLoop_nil] at h; exact absurd h (List.not_mem_nil _)
  | cons e rest ih =>
    intro pairs h
    cases e with
    | pingTick ok =>
      cases ok with
      | true =>
        rw [connectLoop_ping_t] at h
        rcases List.mem_cons.mp h with h1 | h2
        · exact absurd h1 (by simp)
        · exact List.mem_cons_of_mem _ (ih pairs h2)
      | false =>
        rw [connectLoop_ping_f] at h
        exact List.mem_cons_of_mem _ (ih pairs h)
    | subRecv qs ok =>
      cases ok with
      | true =>
        rw [connectLoop_sub_t] at h
        rcases List.mem_cons.mp h with h1 | h2
        · injection h1 with hq; subst hq; exact List.mem_cons_self _ _
        · exact List.mem_cons_of_mem _ (ih pairs h2)
      | false =>
        rw [connectLoop_sub_f] at h
        exact List.mem_cons_of_mem _ (ih pairs h)
    | read closedNow rr =>
      cases closedNow with
      | true =>
        rw [connectLoop_read_closed] at h
        exact absurd h (List.not_mem_nil _)
      | false =>
        cases rr with
        | readErr =>
          rw [connectLoop_read_err] at h
          exact absurd h (List.not_mem_nil _)
        | frame f =>
          rw [connectLoop_read_frame] at h
          cases hp : processFrame f with
          | fatalStop =>
            rw [hp] at h
            exact absurd h (List.not_mem_nil _)
          | continueWith act =>
            cases act with
            | none =>
              rw [hp] at h
              exact List.mem_cons_of_mem _ (ih pairs h)
            | some m =>
              rw [hp] at h
              rcases List.mem_cons.mp h with h1 | h2
              · exact absurd h1 (by simp)
              · exact List.mem_cons_of_mem _ (ih pairs h2)

lemma byteToUpper_idem (b : Nat) : byteToUpper (byteToUpper b) = byteToUpper b := by
  by_cases hb : 97 ≤ b ∧ b ≤ 122
  · have hub : byteToUpper b = b - 32 := if_pos hb
    rw [hub]
    have h32 : ¬ (97 ≤ b - 32 ∧ b - 32 ≤ 122) := by omega
    exact if_neg h32
  · have hub : byteToUpper b = b := if_neg hb
    rw [hub]
    exact hub

lemma bytesToUpper_idem (s : List Nat) : bytesToUpper (bytesToUpper s) = bytesToUpper s := by
  induction s with
  | nil => rfl
  | cons b s ih =>
    simp only [bytesToUpper, List.map_cons] at ih ⊢
    rw [byteToUpper_idem, ih]

/-! ## Claims -/

/-- C7, counterexample: when the gap between two consecutive failed attempts
equals the reset threshold exactly (gap 10, threshold 10, so the gap does NOT
strictly exceed the threshold), the claim's "otherwise" branch predicts the
wait for the incremented attempt count (6), but `calculateBackoff` resets
(the source tests `>=`, streaming.go 170) and returns the wait for attempt
count 1. -/
theorem C7_counterexample :
    ¬ ((10 : Int) - (0 : Int) > c7Config.attemptReset) ∧
    (calculateBackoff c7Config idPolicy { attempts := 5, lastAttempt := 0 } 10).1 = idPolicy 1 ∧
    idPolicy 1 ≠ idPolicy (5 + 1) := by decide

/-- C7, amended: the attempt count is reset before the next attempt is counted
whenever the gap since the last attempt is at least (`>=`, not strictly
greater than) the configured reset threshold, and then the computed wait is
the policy applied to attempt count 1 regardless of the prior count; when the
gap is strictly below the threshold the wait is the policy applied to the
incremented attempt count. -/
theorem C7_amended (c : BackoffConfig) (h dflt : Nat → Int) (p : backoffParams) (ts : Int)
    (hh : c.backoffHandler = some h) :
    (ts - p.lastAttempt ≥ c.attemptReset →
      calculateBackoff c dflt p ts = (h 1, { attempts := 1, lastAttempt := ts })) ∧
    (ts - p.lastAttempt < c.attemptReset →
      calculateBackoff c dflt p ts =
        (h (p.attempts + 1), { attempts := p.attempts + 1, lastAttempt := ts })) := by
  constructor
  · intro hge
    simp [calculateBackoff, hh, if_pos hge]
  · intro hlt
    simp [calculateBackoff, hh, if_neg (not_le.mpr hlt)]

/-- C7, witness: both branches of the amended claim at concrete inputs. -/
theorem C7_amended_witness :
    calculateBackoff c7Config idPolicy { attempts := 5, lastAttempt := 0 } 10 =
      (idPolicy 1, { attempts := 1, lastAttempt := 10 }) ∧
    calculateBackoff c7Config idPolicy { attempts := 5, lastAttempt := 0 } 9 =
      (idPolicy 6, { attempts := 6, lastAttempt := 9 }) := by
  constructor
  · exact (C7_amended c7Config idPolicy idPolicy { attempts := 5, lastAttempt := 0 } 10
      rfl).1 (by decide)
  · exact (C7_amended c7Config idPolicy idPolicy { attempts := 5, lastAttempt := 0 } 9
      rfl).2 (by decide)

/-- C8: `Dial` returns the credentials error synchronously, spawning no task,
exactly when the key id or the secret is empty; otherwise it returns a handle
together with exactly the one spawned supervisor task (its result never
depends on any connection outcome, so it does not block on the first
connection). -/
theorem C8_dial (keyID keySecret : String) (opts : List (ConnInit → ConnInit)) :
    ((keyID = "" ∨ keySecret = "") →
        Dial keyID keySecret opts =
          Except.error "streaming: streaming API requires credentials") ∧
    (¬ (keyID = "" ∨ keySecret = "") →
        ∃ c, Dial keyID keySecret opts =
          Except.ok (c, [SpawnedTask.manageForeverTask])) := by
  constructor
  · intro h
    unfold Dial
    rw [if_pos h]
  · intro h
    exact ⟨opts.foldl (fun c o => o c)
        { keyID := keyID, keySecret := keySecret, attemptReset := defaultAttemptReset },
      by unfold Dial; rw [if_neg h]⟩

/-- C8, witness: empty key id rejected synchronously; valid credentials give a
handle and the single supervisor task. -/
theorem C8_dial_witness :
    Dial "" "secret" [] = Except.error "streaming: streaming API requires credentials" ∧
    ∃ c, Dial "key" "secret" [] = Except.ok (c, [SpawnedTask.manageForeverTask]) :=
  ⟨(C8_dial "" "secret" []).1 (Or.inl rfl), (C8_dial "key" "secret" []).2 (by decide)⟩

/-- C9: the signature is invariant under the letter case of the verb, for
every MAC function, because `SignRequest` uppercases the verb before feeding
it to the MAC and uppercasing is idempotent. -/
theorem C9_signRequest_verb_case_invariant
    (hmacSha512Hex : List Nat → List Nat → List Nat)
    (apiSecret timestampString verb path body : List Nat) :
    SignRequest hmacSha512Hex apiSecret timestampString verb path body =
      SignRequest hmacSha512Hex apiSecret timestampString (bytesToUpper verb) path body := by
  unfold SignRequest macInput
  rw [bytesToUpper_idem]

/-- C10: a frame whose raw content is exactly the two-character JSON string of
an empty string is skipped before decoding: whatever the decode oracles say,
the session processes it with no callback, no error, and continues with the
subsequent events. -/
theorem C10_keepalive_frame_skipped (tf : Option String) (tp : Option MessageTradeUpdate)
    (rest : List SessEvent) :
    connectLoop (SessEvent.read false (ReadResult.frame ⟨keepAliveRaw, tf, tp⟩) :: rest) =
      connectLoop rest := by
  rw [connectLoop_read_frame]
  have hp : processFrame ⟨keepAliveRaw, tf, tp⟩ = FrameStep.continueWith none := by
    simp [processFrame]
  rw [hp]

/-- C1, counterexample: session 0 rendezvouses and sends the batch
`["BTCZAR"]`, then dies on a read error; after the reconnect (the second
`connectAttempt`, trace position 3) the new session delivers an inbound trade
update to the callback, yet the segment after the reconnect contains no
subscription frame at all — the batch present at reconnect time is not
replayed (the `Conn` struct stores no subscription set), contradicting the
claim that every such batch is emitted before any inbound update. -/
theorem C1_counterexample :
    manageForeverTrace 2 c1scripts c1flags =
      [SupAction.connectAttempt,
       SupAction.sess (SessAction.subscribeSent ["BTCZAR"]),
       SupAction.backoffWait,
       SupAction.connectAttempt,
       SupAction.sess (SessAction.callback tradeMsg)] ∧
    ((manageForeverTrace 2 c1scripts c1flags).drop 4).filter isSubscribeSent = [] ∧
    ((manageForeverTrace 2 c1scripts c1flags).drop 4).filter isCallbackAct ≠ [] := by
  decide

/-- C1, amended: on a (re)connection nothing is replayed — the connection
manager records no subscription set, so a session in which no
`SubscribeToMarkets` rendezvous occurs emits no subscription frame whatsoever,
regardless of the subscriptions requested before the reconnect; subscription
frames are emitted only at the moment a rendezvous happens during the live
session. -/
theorem C1_amended (evs : List SessEvent)
    (h : ∀ (pairs : List String) (ok : Bool), SessEvent.subRecv pairs ok ∉ evs) :
    ∀ pairs : List String, SessAction.subscribeSent pairs ∉ (connectLoop evs).1 := by
  intro pairs hmem
  exact h pairs true (connectLoop_sub_mem evs pairs hmem)

/-- C1, witness: a reconnected session that only reads a trade frame emits no
subscription frame. -/
theorem C1_amended_witness :
    SessAction.subscribeSent ["BTCZAR"] ∉
      (connectLoop [SessEvent.read false (ReadResult.frame tradeFrame)]).1 :=
  C1_amended [SessEvent.read false (ReadResult.frame tradeFrame)]
    (by intro pairs ok hmem; simp at hmem) ["BTCZAR"]

/-- C2, counterexample: `Close` on a handle with a live transport session sets
the closed flag but leaves the session live — `reset` only takes and releases
the mutex (streaming.go 247-250), and nothing in `Close` closes `c.ws`; the
claim that `close()` tears down any live transport session is false (teardown
happens only via the deferred `ws.Close()` when the serve loop returns). -/
theorem C2_counterexample :
    (Close { closed := false, wsLive := true }).closed = true ∧
    (Close { closed := false, wsLive := true }).wsLive = true := by decide

/-- C2, amended: `Close` is idempotent, sets the closed flag, and leaves any
live transport session untouched (teardown happens only when the serve loop
returns); once the serve loop observes the flag it performs no further actions
and exits, and once the supervisor's post-session check observes the flag no
further connect attempts are started. -/
theorem C2_amended :
    (∀ s : ConnCtl, Close (Close s) = Close s) ∧
    (∀ s : ConnCtl, (Close s).closed = true) ∧
    (∀ s : ConnCtl, (Close s).wsLive = s.wsLive) ∧
    (∀ (rr : ReadResult) (rest : List SessEvent),
        connectLoop (SessEvent.read true rr :: rest) = ([], SessOutcome.closedExit)) ∧
    (∀ (n : Nat) (scripts : Nat → Option (List SessEvent)) (ca : Nat → Bool),
        ca 0 = true → countConnects (manageForeverTrace (n+1) scripts ca) = 1) := by
  refine ⟨fun s => rfl, fun s => rfl, fun s => rfl, fun rr rest => rfl, ?_⟩
  intro n scripts ca hca
  cases hs : scripts 0 with
  | none =>
    simp [manageForeverTrace, hs, hca, countConnects]
  | some script =>
    cases ho : (connectLoop script).2 with
    | running =>
      simp [manageForeverTrace, hs, ho, hca, countConnects_append, countConnects_sessMap,
        countConnects]
    | closedExit =>
      simp [manageForeverTrace, hs, ho, hca, countConnects_append, countConnects_sessMap,
        countConnects]
    | fatal =>
      simp [manageForeverTrace, hs, ho, hca, countConnects_append, countConnects_sessMap,
        countConnects]

/-- C2, witness: the amended claim at concrete inputs. -/
theorem C2_amended_witness :
    Close (Close { closed := false, wsLive := true }) = Close { closed := false, wsLive := true } ∧
    (Close { closed := false, wsLive := true }).closed = true ∧
    (Close { closed := false, wsLive := true }).wsLive =
      ({ closed := false, wsLive := true } : ConnCtl).wsLive ∧
    connectLoop [SessEvent.read true ReadResult.readErr] = ([], SessOutcome.closedExit) ∧
    countConnects (manageForeverTrace 1 (fun _ => some []) (fun _ => true)) = 1 :=
  ⟨C2_amended.1 _, C2_amended.2.1 _, C2_amended.2.2.1 _, C2_amended.2.2.2.1 _ _,
    C2_amended.2.2.2.2 0 (fun _ => some []) (fun _ => true) rfl⟩

/-- C3, counterexample: `SubscribeCh` is created unbuffered
(`make(chan []string)`, capacity 0), so the send `c.SubscribeCh <- pairs`
performed by `SubscribeToMarkets` cannot complete while no receiver is ready —
and the only receiver runs inside a live session's `sendPings` loop. With no
session live the caller blocks (result `none`): the call is not fire-and-forget,
it blocks beyond enqueueing, and nothing is recorded for a later replay. -/
theorem C3_counterexample :
    trySendNoReceiver dialSubscribeCh ["BTCZAR"] = none := rfl

/-- C3, amended: `SubscribeToMarkets` is a blocking rendezvous send on an
unbuffered channel: with no live receiver the send never completes (for every
batch), and it raises no error; a batch whose rendezvous is received by a live
session's ping loop is sent to the server as one SUBSCRIBE frame of that very
session (when the write succeeds) rather than being recorded for replay. -/
theorem C3_amended :
    (∀ pairs : List String, trySendNoReceiver dialSubscribeCh pairs = none) ∧
    (∀ (pairs : List String) (rest : List SessEvent),
        connectLoop (SessEvent.subRecv pairs true :: rest) =
          (SessAction.subscribeSent pairs :: (connectLoop rest).1, (connectLoop rest).2)) :=
  ⟨fun _ => rfl, fun _ _ => rfl⟩

/-- C4, counterexample: a data frame arrives at t = 59, before the initial
read deadline (60) elapses and 2 seconds before the next read, yet the read at
t = 61 observes a timeout: ordinary inbound data frames do not reset liveness
(only the pong handler touches the deadline, streaming.go 193-196), so the
session is declared dead even though data arrived before the deadline
elapsed. -/
theorem C4_counterexample :
    timedOutAt [LiveEvent.data 59] 61 ∧
    59 < deadlineAfter [] ∧
    61 - 59 < readTimeout := by decide

/-- C4, amended: receipt of a pong extends the read deadline to its arrival
time plus `readTimeout`; ordinary data frames leave the deadline unchanged,
so the deadline depends only on the pong events: the session is declared dead
exactly when the read path blocks past the last pong-set (or initial)
deadline, regardless of data traffic. -/
theorem C4_amended :
    (∀ (evs : List LiveEvent) (t : Nat),
        deadlineAfter (evs ++ [LiveEvent.pong t]) = t + readTimeout) ∧
    (∀ (evs : List LiveEvent) (t : Nat),
        deadlineAfter (evs ++ [LiveEvent.data t]) = deadlineAfter evs) ∧
    (∀ evs : List LiveEvent, deadlineAfter evs = deadlineAfter (evs.filter isPong)) := by
  refine ⟨?_, ?_, ?_⟩
  · intro evs t
    simp [deadlineAfter, List.foldl_append, stepDeadline]
  · intro evs t
    simp [deadlineAfter, List.foldl_append, stepDeadline]
  · intro evs
    have h : ∀ d, List.foldl stepDeadline d evs = List.foldl stepDeadline d (evs.filter isPong) := by
      induction evs with
      | nil => intro d; rfl
      | cons e rest ih =>
        intro d
        cases e with
        | pong t => simp [List.filter, isPong, stepDeadline, ih]
        | data t => simp [List.filter, isPong, stepDeadline, ih]
    exact h readTimeout

/-- C5, counterexample: a failed ping write and a failed SUBSCRIBE write are
logged and ignored (streaming.go 208-210, 228-231): the session does not end,
and a subsequent trade frame is still delivered to the callback — a write
error does not transition the supervisor to Backoff, contradicting the "any
write error" part of the claim. -/
theorem C5_counterexample :
    connectLoop c5script = ([SessAction.callback tradeMsg], SessOutcome.running) ∧
    (connectLoop c5script).2 ≠ SessOutcome.fatal := by decide

/-- C5, amended: a read error (including a keepalive timeout, which surfaces
on the read path as a read error) and a fatal decode error end the session
with a fatal outcome, after which the supervisor backs off; write errors on
the ping/subscribe path are logged and ignored, leaving the session running. -/
theorem C5_amended :
    (∀ rest : List SessEvent,
        connectLoop (SessEvent.read false ReadResult.readErr :: rest) =
          ([], SessOutcome.fatal)) ∧
    (∀ (raw : String) (tp : Option MessageTradeUpdate) (rest : List SessEvent),
        raw ≠ keepAliveRaw →
        connectLoop (SessEvent.read false (ReadResult.frame ⟨raw, none, tp⟩) :: rest) =
          ([], SessOutcome.fatal)) ∧
    (∀ rest : List SessEvent,
        connectLoop (SessEvent.pingTick false :: rest) = connectLoop rest) ∧
    (∀ (pairs : List String) (rest : List SessEvent),
        connectLoop (SessEvent.subRecv pairs false :: rest) = connectLoop rest) := by
  refine ⟨fun rest => rfl, ?_, fun rest => rfl, fun pairs rest => rfl⟩
  intro raw tp rest hraw
  rw [connectLoop_read_frame]
  have hp : processFrame ⟨raw, none, tp⟩ = FrameStep.fatalStop := by
    simp [processFrame, hraw]
  rw [hp]

/-- C5, witness: the amended claim at concrete inputs. -/
theorem C5_amended_witness :
    connectLoop [SessEvent.read false ReadResult.readErr] = ([], SessOutcome.fatal) ∧
    connectLoop [SessEvent.read false (ReadResult.frame ⟨"x", none, none⟩)] =
      ([], SessOutcome.fatal) :=
  ⟨C5_amended.1 [], C5_amended.2.1 "x" none [] (by decide)⟩

/-- C6: processing one inbound non-keepalive frame ends the session with an
error exactly when the message-kind discriminator cannot be decoded or a
NEW_TRADE frame's payload fails to parse; a frame with an unknown
discriminator is ignored and the session continues with the subsequent
events; and the supervisor's control actions strictly alternate
(connect, wait, connect, ...), so a session ended by a known-kind invalid
payload is followed by exactly one backoff wait before the next connect
attempt. -/
theorem C6_decode_dispatch :
    (∀ f : InFrame, f.raw ≠ keepAliveRaw →
        (connectLoop [SessEvent.read false (ReadResult.frame f)] = ([], SessOutcome.fatal) ↔
          (f.typeField = none ∨
            (f.typeField = some "NEW_TRADE" ∧ f.tradePayload = none)))) ∧
    (∀ (raw t : String) (tp : Option MessageTradeUpdate) (rest : List SessEvent),
        raw ≠ keepAliveRaw → t ≠ "NEW_TRADE" → t ≠ "AUTHENTICATED" → t ≠ "SUBSCRIBED" →
        connectLoop (SessEvent.read false (ReadResult.frame ⟨raw, some t, tp⟩) :: rest) =
          connectLoop rest) ∧
    (∀ (n : Nat) (scripts : Nat → Option (List SessEvent)) (ca : Nat → Bool),
        altFrom true (ctlOnly (manageForeverTrace n scripts ca)) = true) := by
  refine ⟨?_, ?_, manage_alt⟩
  · intro f hraw
    obtain ⟨raw, tf, tp⟩ := f
    rw [connectLoop_read_frame]
    cases tf with
    | none =>
      have hp : processFrame ⟨raw, none, tp⟩ = FrameStep.fatalStop := by
        simp [processFrame, hraw]
      rw [hp]
      simp
    | some t =>
      by_cases ht : t = "NEW_TRADE"
      · subst ht
        cases tp with
        | none =>
          have hp : processFrame ⟨raw, some "NEW_TRADE", none⟩ = FrameStep.fatalStop := by
            simp [processFrame, receivedUpdate, hraw]
          rw [hp]
          simp
        | some m =>
          have hp : processFrame ⟨raw, some "NEW_TRADE", some m⟩ =
              FrameStep.continueWith (some m) := by
            simp [processFrame, receivedUpdate, hraw]
          rw [hp]
          simp
      · have hp : processFrame ⟨raw, some t, tp⟩ = FrameStep.continueWith none := by
          by_cases ha : t = "AUTHENTICATED"
          · simp [processFrame, receivedUpdate, hraw, ht, ha]
          · by_cases hsu : t = "SUBSCRIBED"
            · simp [processFrame, receivedUpdate, hraw, ht, hsu]
            · simp [processFrame, receivedUpdate, hraw, ht, ha, hsu]
        rw [hp]
        simp [connectLoop_nil, ht]
  · intro raw t tp rest hraw ht ha hsu
    rw [connectLoop_read_frame]
    have hp : processFrame ⟨raw, some t, tp⟩ = FrameStep.continueWith none := by
      simp [processFrame, receivedUpdate, hraw, ht, ha, hsu]
    rw [hp]

/-- C6, witness: a NEW_TRADE frame with an unparseable payload ends the
session fatally; a frame with an unknown kind leaves the session exactly as it
was. -/
theorem C6_decode_dispatch_witness :
    (connectLoop [SessEvent.read false (ReadResult.frame ⟨"x", some "NEW_TRADE", none⟩)] =
        ([], SessOutcome.fatal) ↔
      ((some "NEW_TRADE" : Option String) = none ∨
        ((some "NEW_TRADE" : Option String) = some "NEW_TRADE" ∧
          (none : Option MessageTradeUpdate) = none))) ∧
    connectLoop [SessEvent.read false (ReadResult.frame ⟨"x", some "WEIRD", none⟩)] =
      connectLoop [] :=
  ⟨C6_decode_dispatch.1 ⟨"x", some "NEW_TRADE", none⟩ (by decide),
   C6_decode_dispatch.2.1 "x" "WEIRD" none [] (by decide) (by decide) (by decide) (by decide)⟩

end Valr
